import Mathlib

/- Shallow embedding of the SearchAgent worker-pool core
   (src/search_agent/mcp_servers/search_worker_pool.py and
   src/search_agent/coordination/_worker_wrapper.py).

   Modelling conventions:
   * Python objects mutated in place become immutable Lean values; the
     worker pool is a `List WorkerAgentWrapper` and mutation of a worker's
     `is_busy` flag becomes a positional update of the list.
   * The opaque executor call `agent.agent.run(subtask)` is modelled by a
     behaviour function `beh : Nat → Except PyExc RunResponse` giving, for
     each attempt number, either the raised exception or the returned
     response dict.
   * Wall-clock time (`time.perf_counter`, `datetime.now`) is external
     input; elapsed seconds are abstracted to `0`, and `datetime.now()` is
     passed in as an abstract `now : Nat` where a timestamp is written.
   * `asyncio.sleep(1)` calls are recorded in a trace list of slept
     durations, so backoff behaviour is observable.
   * A raised exception becomes an `Except.error`; the fields interpolated
     into the Python error-message strings are kept as structured record
     fields (`TaskError`), since the claims speak about that content.
   * `execute_subtasks` is modelled after pool initialization has
     happened (the Python function's first action on an uninitialized
     process is to call `initialize_pool`, which is modelled separately). -/

/-- A Python exception as seen by the retry loop: its type name and message. -/
structure PyExc where
  excType : String
  excMsg : String
deriving DecidableEq

/-- An element of the `messages` list inside the executor's response dict:
either an object with a `content` attribute, a dict with a `"content"` key,
or a value with neither. -/
inductive Msg where
  | attrContent (content : String)
  | dictContent (content : String)
  | noContent
deriving DecidableEq

/-- The `content` carried by a message element, when it has one. -/
def Msg.contentVal : Msg → Option String
  | Msg.attrContent c => some c
  | Msg.dictContent c => some c
  | Msg.noContent => none

/-- The executor's response dict, restricted to the parts
`_extract_output_from_dict` inspects: the `"output"` entry (already
rendered by `str`), the `"messages"` entry (absent key modelled as `[]`,
matching `result.get("messages", [])`), and `str(result)`, the rendering
of the whole dict. -/
structure RunResponse where
  output : Option String
  messages : List Msg
  selfStr : String
deriving DecidableEq

/-- `_extract_output_from_dict` from search_worker_pool.py: prefer
`str(result["output"])`; else the `content` of the last message when it
has one; else `str(result)`. -/
def _extract_output_from_dict (result : RunResponse) : String :=
  match result.output with
  | some o => o
  | none =>
    match result.messages.getLast? with
    | some (Msg.attrContent c) => c
    | some (Msg.dictContent c) => c
    | _ => result.selfStr

/-- A claim-side reading of the extraction rule, for comparison with
`_extract_output_from_dict`: output if present, otherwise the content of
the last message when one exists, otherwise the dict rendering. -/
def specExtract (result : RunResponse) : String :=
  match result.output with
  | some o => o
  | none =>
    match result.messages.getLast?.bind Msg.contentVal with
    | some c => c
    | none => result.selfStr

/-- `WorkerAgentWrapper` from _worker_wrapper.py: identity, busy flag,
usage counter and timestamps (timestamps abstracted to `Nat`). -/
structure WorkerAgentWrapper where
  agent_id : String
  is_busy : Bool
  task_count : Nat
  created_at : Nat
  last_used : Nat
deriving DecidableEq

/-- `WorkerAgentWrapper.execute`: sets `is_busy`, increments `task_count`,
updates `last_used`, runs the wrapped executor (whose outcome is the given
`runResult`), and clears `is_busy` in the `finally` block whether the run
returned or raised; the run's outcome is propagated unchanged. The
returned worker is the state after the `finally` block. -/
def WorkerAgentWrapper.execute (w : WorkerAgentWrapper) (now : Nat)
    (runResult : Except PyExc RunResponse) :
    WorkerAgentWrapper × Except PyExc RunResponse :=
  ({ w with is_busy := false, task_count := w.task_count + 1, last_used := now },
   runResult)

/-- A success record returned by `execute_on_agent`
(`{subtask_index, subtask, result, agent_id, time_taken_seconds}`). -/
structure TaskSuccess where
  subtask_index : Nat
  subtask : String
  result : String
  agent_id : String
  time_taken_seconds : Nat
deriving DecidableEq

/-- The data interpolated into the `RuntimeError` message raised when a
subtask exhausts all attempts (agent id, attempt budget, subtask index and
text, exception type and message). -/
structure TaskError where
  agent_id : String
  attempts : Nat
  subtask_index : Nat
  subtask : String
  excType : String
  excMsg : String
deriving DecidableEq

/-- `max_retrys = 5` in `execute_on_agent`. -/
def max_retrys : Nat := 5

/-- The `for attempt in range(max_retrys)` loop of `execute_on_agent`,
with `fuel` the number of iterations the range still holds
(`fuel = max_retrys - attempt`). Returns the loop's outcome together with
the list of backoff sleeps performed (each `asyncio.sleep(1)` contributes
a `1`). The `fuel = 0` case is the loop body falling through, which cannot
happen when entered with `fuel = max_retrys`; it is given an error value. -/
def runRetryLoop (agent : WorkerAgentWrapper) (subtask : String) (idx : Nat)
    (beh : Nat → Except PyExc RunResponse) :
    Nat → Nat → Except TaskError TaskSuccess × List Nat
  | _, 0 =>
    (Except.error { agent_id := agent.agent_id, attempts := max_retrys,
                    subtask_index := idx, subtask := subtask,
                    excType := "", excMsg := "" }, [])
  | attempt, fuel + 1 =>
    match beh attempt with
    | Except.ok response =>
      (Except.ok { subtask_index := idx, subtask := subtask,
                   result := _extract_output_from_dict response,
                   agent_id := agent.agent_id, time_taken_seconds := 0 }, [])
    | Except.error exc =>
      if fuel = 0 then
        (Except.error { agent_id := agent.agent_id, attempts := max_retrys,
                        subtask_index := idx, subtask := subtask,
                        excType := exc.excType, excMsg := exc.excMsg }, [])
      else
        let rest := runRetryLoop agent subtask idx beh (attempt + 1) fuel
        (rest.1, 1 :: rest.2)

/-- `execute_on_agent` from `execute_subtasks`: run the subtask on the
claimed agent with up to `max_retrys` attempts, sleeping 1 between failed
attempts, returning the success record or the exhaustion error. -/
def execute_on_agent (agent : WorkerAgentWrapper) (subtask : String) (idx : Nat)
    (beh : Nat → Except PyExc RunResponse) :
    Except TaskError TaskSuccess × List Nat :=
  runRetryLoop agent subtask idx beh 0 max_retrys

/-- The positions (in creation order, starting at `k`) of the workers with
`is_busy = false`: the list comprehension
`[w for w in worker_pool if not w.is_busy]`, with each selected object
identified by its position in `worker_pool`. -/
def idleIdxsFrom (k : Nat) : List WorkerAgentWrapper → List Nat
  | [] => []
  | w :: ws => if w.is_busy then idleIdxsFrom (k + 1) ws
               else k :: idleIdxsFrom (k + 1) ws

/-- `available = [w for w in worker_pool if not w.is_busy][:n]`, as the
positions of the selected workers. -/
def availableIdxs (pool : List WorkerAgentWrapper) (n : Nat) : List Nat :=
  (idleIdxsFrom 0 pool).take n

/-- `for agent in available: agent.is_busy = b` — in-place mutation of the
selected pool members, modelled as a positional update (position `k`
onward). -/
def setBusyFrom (k : Nat) (idxs : List Nat) (b : Bool) :
    List WorkerAgentWrapper → List WorkerAgentWrapper
  | [] => []
  | w :: ws =>
    (if k ∈ idxs then { w with is_busy := b } else w) ::
      setBusyFrom (k + 1) idxs b ws

/-- Set the busy flag of the workers at the given positions. -/
def setBusy (pool : List WorkerAgentWrapper) (idxs : List Nat) (b : Bool) :
    List WorkerAgentWrapper :=
  setBusyFrom 0 idxs b pool

/-- Number of idle workers in the pool. -/
def idleCount (pool : List WorkerAgentWrapper) : Nat :=
  (pool.filter (fun w => !w.is_busy)).length

/-- Batch-level errors raised by `execute_subtasks` before any task
starts: the two `ValueError`s of validation and the `RuntimeError` of
failed allocation. -/
inductive BatchError where
  | valueError (msg : String)
  | runtimeError (msg : String)
deriving DecidableEq

/-- The dict returned by an accepted batch:
`{results, failed, subtasks_count, agents_used, pool_size}`. Each `failed`
entry is `{"error": str(result)}` in Python; the fields composing that
string are kept structured as a `TaskError`. -/
structure BatchResult where
  results : List TaskSuccess
  failed : List TaskError
  subtasks_count : Nat
  agents_used : Nat
  pool_size : Nat
deriving DecidableEq

/-- Placeholder worker for out-of-range list access; every access through
it is guarded by an in-range invariant. -/
def defaultWorker : WorkerAgentWrapper :=
  { agent_id := "", is_busy := false, task_count := 0,
    created_at := 0, last_used := 0 }

/-- The per-outcome list produced by
`await asyncio.gather(*tasks, return_exceptions=True)`: task `i` of the
batch runs on the `i`-th claimed worker (`zip(available, subtasks)`,
enumerated), with `env i` the executor behaviour for that task. A raised
`RuntimeError` is collected as an `Except.error` value, exactly as
`return_exceptions=True` collects exceptions instead of propagating. -/
def batchOutcomes (pool : List WorkerAgentWrapper) (avail : List Nat)
    (subtasks : List String) (env : Nat → Nat → Except PyExc RunResponse) :
    List (Except TaskError TaskSuccess) :=
  (avail.zip subtasks).enum.map
    (fun p => (execute_on_agent (pool.getD p.2.1 defaultWorker) p.2.2 p.1 (env p.1)).1)

/-- `result` when the gather entry is a success record (not an exception). -/
def okOutcome : Except TaskError TaskSuccess → Option TaskSuccess
  | Except.ok s => some s
  | Except.error _ => none

/-- `result` when the gather entry is an exception. -/
def errOutcome : Except TaskError TaskSuccess → Option TaskError
  | Except.ok _ => none
  | Except.error e => some e

/-- `execute_subtasks` from search_worker_pool.py, after pool
initialization: validate the batch size, claim the first
`len(subtasks)` idle workers under the pool lock (all-or-nothing), run
every task concurrently with retry, partition the gathered outcomes into
`results`/`failed`, and release the claimed workers in the `finally`
block. Returns the batch outcome together with the final pool state. -/
def execute_subtasks (pool : List WorkerAgentWrapper) (max_pool_size : Nat)
    (subtasks : List String) (env : Nat → Nat → Except PyExc RunResponse) :
    Except BatchError BatchResult × List WorkerAgentWrapper :=
  if subtasks.length < 1 then
    (Except.error (BatchError.valueError "Must provide at least 1 subtask"), pool)
  else if max_pool_size < subtasks.length then
    (Except.error (BatchError.valueError "Too many subtasks for pool size"), pool)
  else
    let avail := availableIdxs pool subtasks.length
    if avail.length < subtasks.length then
      (Except.error (BatchError.runtimeError "Not enough agents"), pool)
    else
      let claimed := setBusy pool avail true
      let outcomes := batchOutcomes claimed avail subtasks env
      (Except.ok { results := outcomes.filterMap okOutcome,
                   failed := outcomes.filterMap errOutcome,
                   subtasks_count := subtasks.length,
                   agents_used := avail.length,
                   pool_size := max_pool_size },
       setBusy claimed avail false)

/-- The module-level pool state of search_worker_pool.py: `worker_pool`,
the `"max_pool_size"` entry of `pool_config` (`none` when the key is
absent), and `_pool_initialized`. -/
structure PoolState where
  worker_pool : List WorkerAgentWrapper
  pool_config_max : Option Nat
  pool_initialized : Bool
deriving DecidableEq

/-- `f"search_agent_{i}"`. -/
def mkWorkerName (i : Nat) : String :=
  "search_agent_" ++ toString i

/-- A freshly constructed `WorkerAgentWrapper(agent, f"search_agent_{i}")`. -/
def freshWorker (i : Nat) : WorkerAgentWrapper :=
  { agent_id := mkWorkerName i, is_busy := false, task_count := 0,
    created_at := 0, last_used := 0 }

/-- `initialize_pool`: return immediately when `_pool_initialized`;
otherwise resolve the configured size (`config = None` yields a default
config carrying `MAX_POOL_SIZE`; a config without the key falls back to
`MAX_POOL_SIZE`), append that many fresh wrappers to `worker_pool`, store
the config and set the flag. The `config` argument is `none` for
`config=None`, `some c` for a given config whose `"max_pool_size"` entry
is `c`. -/
def initialize_pool (MAX_POOL_SIZE : Nat) (st : PoolState)
    (config : Option (Option Nat)) : PoolState :=
  if st.pool_initialized then st
  else
    let cfg : Option Nat :=
      match config with
      | none => some MAX_POOL_SIZE
      | some c => c
    let maxSize := cfg.getD MAX_POOL_SIZE
    { worker_pool := st.worker_pool ++ (List.range maxSize).map freshWorker,
      pool_config_max := cfg,
      pool_initialized := true }

/-- The `subtask_index` carried by a gathered outcome, success or failure. -/
def outcomeIdx : Except TaskError TaskSuccess → Nat
  | Except.ok s => s.subtask_index
  | Except.error e => e.subtask_index

/-- The indices carried by the success records of an accepted batch. -/
def successIdxs : Except BatchError BatchResult → List Nat
  | Except.ok r => r.results.map (fun s => s.subtask_index)
  | Except.error _ => []

/-- The indices carried by the failure records of an accepted batch. -/
def failedIdxs : Except BatchError BatchResult → List Nat
  | Except.ok r => r.failed.map (fun e => e.subtask_index)
  | Except.error _ => []

/-- A pool of `n` freshly initialized idle workers, as built by
`initialize_pool` from an empty `worker_pool`. -/
def freshPool (n : Nat) : List WorkerAgentWrapper :=
  (List.range n).map freshWorker

/-- A response dict whose `"output"` entry renders to `s`. -/
def okResp (s : String) : RunResponse :=
  { output := some s, messages := [], selfStr := s }

/-- A sample exception raised by an executor attempt. -/
def excW : PyExc :=
  { excType := "TimeoutError", excMsg := "timed out" }

/-- Executor behaviour: every attempt of every task succeeds. -/
def envOk : Nat → Nat → Except PyExc RunResponse :=
  fun _ _ => Except.ok (okResp "ok")

/-- Executor behaviour: task 0 fails on every attempt, the others succeed. -/
def envFailFirst : Nat → Nat → Except PyExc RunResponse :=
  fun i _ => if i = 0 then Except.error excW else Except.ok (okResp "ok")

/-- Executor behaviour: task 1 fails on every attempt, tasks 0 and 2
succeed at once. -/
def envFailMid : Nat → Nat → Except PyExc RunResponse :=
  fun i _ => if i = 1 then Except.error excW else Except.ok (okResp "ok")

/-- Single-task behaviour: attempts 1–4 raise, attempt 5 succeeds. -/
def behLateSuccess : Nat → Except PyExc RunResponse :=
  fun k => if k < 4 then Except.error excW else Except.ok (okResp "done")

/-- The batch result of running the single subtask `"t"` on a fresh
one-worker pool with an always-succeeding executor. -/
def oneTaskResult : BatchResult :=
  { results := [{ subtask_index := 0, subtask := "t", result := "ok",
                  agent_id := "search_agent_0", time_taken_seconds := 0 }],
    failed := [],
    subtasks_count := 1, agents_used := 1, pool_size := 1 }

/-- A response dict with no `"output"` entry whose single message carries
no `content`. -/
def noContentResp : RunResponse :=
  { output := none, messages := [Msg.noContent], selfStr := "dict-rendering" }

/-- The batch result of `["a","b","c"]` on a fresh three-worker pool when
task 1 fails permanently and tasks 0 and 2 succeed at once. -/
def threeTaskResult : BatchResult :=
  { results := [{ subtask_index := 0, subtask := "a", result := "ok",
                  agent_id := "search_agent_0", time_taken_seconds := 0 },
                { subtask_index := 2, subtask := "c", result := "ok",
                  agent_id := "search_agent_2", time_taken_seconds := 0 }],
    failed := [{ agent_id := "search_agent_1", attempts := 5,
                 subtask_index := 1, subtask := "b",
                 excType := "TimeoutError", excMsg := "timed out" }],
    subtasks_count := 3, agents_used := 3, pool_size := 3 }

/- ### Helper lemmas -/

lemma setBusyFrom_get? (idxs : List Nat) (b : Bool) :
    ∀ (pool : List WorkerAgentWrapper) (k j : Nat),
      (setBusyFrom k idxs b pool).get? j =
        (pool.get? j).map
          (fun w => if (k + j) ∈ idxs then { w with is_busy := b } else w)
  | [], k, j => by simp [setBusyFrom]
  | w :: ws, k, 0 => by simp [setBusyFrom]
  | w :: ws, k, j + 1 => by
    have ih := setBusyFrom_get? idxs b ws (k + 1) j
    simp only [setBusyFrom, List.get?]
    rw [ih]
    have : k + 1 + j = k + (j + 1) := by omega
    rw [this]

lemma busy_false_eta (w : WorkerAgentWrapper) (h : w.is_busy = false) :
    { w with is_busy := false } = w := by
  cases w
  simp_all

lemma idleIdxsFrom_mem :
    ∀ (pool : List WorkerAgentWrapper) (k i : Nat),
      i ∈ idleIdxsFrom k pool →
      ∃ j w, i = k + j ∧ pool.get? j = some w ∧ w.is_busy = false
  | [], k, i, h => by simp [idleIdxsFrom] at h
  | w :: ws, k, i, h => by
    rw [idleIdxsFrom] at h
    by_cases hb : w.is_busy = true
    · rw [if_pos hb] at h
      obtain ⟨j, w', hij, hw, hbusy⟩ := idleIdxsFrom_mem ws (k + 1) i h
      exact ⟨j + 1, w', by omega, by simpa using hw, hbusy⟩
    · rw [if_neg hb] at h
      rcases List.mem_cons.mp h with hik | hmem
      · exact ⟨0, w, by omega, rfl, by simpa using hb⟩
      · obtain ⟨j, w', hij, hw, hbusy⟩ := idleIdxsFrom_mem ws (k + 1) i hmem
        exact ⟨j + 1, w', by omega, by simpa using hw, hbusy⟩

lemma availableIdxs_mem (pool : List WorkerAgentWrapper) (n i : Nat)
    (h : i ∈ availableIdxs pool n) :
    ∃ w, pool.get? i = some w ∧ w.is_busy = false := by
  have h' : i ∈ idleIdxsFrom 0 pool := List.take_subset n _ h
  obtain ⟨j, w, rfl, hw, hbusy⟩ := idleIdxsFrom_mem pool 0 i h'
  exact ⟨w, by simpa using hw, hbusy⟩

lemma idleIdxsFrom_length :
    ∀ (pool : List WorkerAgentWrapper) (k : Nat),
      (idleIdxsFrom k pool).length = idleCount pool
  | [], k => by simp [idleIdxsFrom, idleCount]
  | w :: ws, k => by
    have ih := idleIdxsFrom_length ws (k + 1)
    by_cases hb : w.is_busy <;>
      simp [idleIdxsFrom, idleCount, hb, List.filter_cons] <;>
      simpa [idleCount] using ih

lemma availableIdxs_length (pool : List WorkerAgentWrapper) (n : Nat) :
    (availableIdxs pool n).length = min n (idleCount pool) := by
  simp [availableIdxs, List.length_take, idleIdxsFrom_length]

lemma setBusy_roundtrip (pool : List WorkerAgentWrapper) (idxs : List Nat)
    (hidle : ∀ i ∈ idxs, ∀ w, pool.get? i = some w → w.is_busy = false) :
    setBusy (setBusy pool idxs true) idxs false = pool := by
  apply List.ext_get?
  intro j
  simp only [setBusy]
  rw [setBusyFrom_get? idxs false _ 0 j, setBusyFrom_get? idxs true pool 0 j]
  cases hpj : pool.get? j with
  | none => simp
  | some w =>
    simp only [Option.map_some', Nat.zero_add]
    by_cases hj : j ∈ idxs
    · have hwb := hidle j hj w hpj
      cases w
      simp_all
    · simp [hj]

lemma outcomes_length_split :
    ∀ l : List (Except TaskError TaskSuccess),
      (l.filterMap okOutcome).length + (l.filterMap errOutcome).length = l.length
  | [] => by simp
  | Except.ok s :: l => by
    have ih := outcomes_length_split l
    simp only [List.filterMap_cons, okOutcome, errOutcome, List.length_cons]
    omega
  | Except.error e :: l => by
    have ih := outcomes_length_split l
    simp only [List.filterMap_cons, okOutcome, errOutcome, List.length_cons]
    omega

lemma runRetryLoop_ok (agent : WorkerAgentWrapper) (subtask : String)
    (idx : Nat) (beh : Nat → Except PyExc RunResponse) (attempt fuel : Nat)
    (resp : RunResponse) (h : beh attempt = Except.ok resp) :
    runRetryLoop agent subtask idx beh attempt (fuel + 1) =
      (Except.ok { subtask_index := idx, subtask := subtask,
                   result := _extract_output_from_dict resp,
                   agent_id := agent.agent_id, time_taken_seconds := 0 }, []) := by
  rw [runRetryLoop, h]

lemma runRetryLoop_retry (agent : WorkerAgentWrapper) (subtask : String)
    (idx : Nat) (beh : Nat → Except PyExc RunResponse) (attempt fuel : Nat)
    (exc : PyExc) (h : beh attempt = Except.error exc) (hf : fuel ≠ 0) :
    runRetryLoop agent subtask idx beh attempt (fuel + 1) =
      ((runRetryLoop agent subtask idx beh (attempt + 1) fuel).1,
       1 :: (runRetryLoop agent subtask idx beh (attempt + 1) fuel).2) := by
  rw [runRetryLoop, h]
  simp [hf]

lemma runRetryLoop_last (agent : WorkerAgentWrapper) (subtask : String)
    (idx : Nat) (beh : Nat → Except PyExc RunResponse) (attempt fuel : Nat)
    (exc : PyExc) (h : beh attempt = Except.error exc) (hf : fuel = 0) :
    runRetryLoop agent subtask idx beh attempt (fuel + 1) =
      (Except.error { agent_id := agent.agent_id, attempts := max_retrys,
                      subtask_index := idx, subtask := subtask,
                      excType := exc.excType, excMsg := exc.excMsg }, []) := by
  subst hf
  rw [runRetryLoop, h]
  simp

lemma runRetryLoop_sleeps (agent : WorkerAgentWrapper) (subtask : String)
    (idx : Nat) (beh : Nat → Except PyExc RunResponse) :
    ∀ (fuel attempt : Nat),
      (runRetryLoop agent subtask idx beh attempt fuel).2.length ≤ fuel - 1 ∧
      ∀ s ∈ (runRetryLoop agent subtask idx beh attempt fuel).2, s = 1
  | 0, attempt => by simp [runRetryLoop]
  | fuel + 1, attempt => by
    cases hb : beh attempt with
    | ok resp =>
      rw [runRetryLoop_ok agent subtask idx beh attempt fuel resp hb]
      simp
    | error exc =>
      by_cases hf : fuel = 0
      · rw [runRetryLoop_last agent subtask idx beh attempt fuel exc hb hf]
        simp
      · rw [runRetryLoop_retry agent subtask idx beh attempt fuel exc hb hf]
        have ih := runRetryLoop_sleeps agent subtask idx beh fuel (attempt + 1)
        refine ⟨?_, ?_⟩
        · simp only [List.length_cons]
          omega
        · intro s hs
          rcases List.mem_cons.mp hs with rfl | hs'
          · rfl
          · exact ih.2 s hs'

lemma runRetryLoop_idx (agent : WorkerAgentWrapper) (subtask : String)
    (idx : Nat) (beh : Nat → Except PyExc RunResponse) :
    ∀ (fuel attempt : Nat),
      outcomeIdx (runRetryLoop agent subtask idx beh attempt fuel).1 = idx
  | 0, attempt => by simp [runRetryLoop, outcomeIdx]
  | fuel + 1, attempt => by
    cases hb : beh attempt with
    | ok resp =>
      rw [runRetryLoop_ok agent subtask idx beh attempt fuel resp hb]
      simp [outcomeIdx]
    | error exc =>
      by_cases hf : fuel = 0
      · rw [runRetryLoop_last agent subtask idx beh attempt fuel exc hb hf]
        simp [outcomeIdx]
      · rw [runRetryLoop_retry agent subtask idx beh attempt fuel exc hb hf]
        exact runRetryLoop_idx agent subtask idx beh fuel (attempt + 1)

lemma batchOutcomes_map_idx (pool : List WorkerAgentWrapper)
    (avail : List Nat) (subtasks : List String)
    (env : Nat → Nat → Except PyExc RunResponse) :
    (batchOutcomes pool avail subtasks env).map outcomeIdx =
      List.range (min avail.length subtasks.length) := by
  unfold batchOutcomes
  rw [List.map_map]
  have hfun :
      (outcomeIdx ∘ fun p : Nat × (Nat × String) =>
        (execute_on_agent (pool.getD p.2.1 defaultWorker) p.2.2 p.1 (env p.1)).1) =
      Prod.fst := by
    funext p
    exact runRetryLoop_idx (pool.getD p.2.1 defaultWorker) p.2.2 p.1 (env p.1)
      max_retrys 0
  rw [hfun, List.enum_map_fst, List.length_zip]

lemma batchOutcomes_length (pool : List WorkerAgentWrapper)
    (avail : List Nat) (subtasks : List String)
    (env : Nat → Nat → Except PyExc RunResponse) :
    (batchOutcomes pool avail subtasks env).length =
      min avail.length subtasks.length := by
  have h := batchOutcomes_map_idx pool avail subtasks env
  have := congrArg List.length h
  simpa using this

lemma execute_subtasks_pool_unchanged (pool : List WorkerAgentWrapper)
    (M : Nat) (subtasks : List String)
    (env : Nat → Nat → Except PyExc RunResponse) :
    (execute_subtasks pool M subtasks env).2 = pool := by
  simp only [execute_subtasks]
  split
  · rfl
  · split
    · rfl
    · split
      · rfl
      · refine setBusy_roundtrip pool _ ?_
        intro i hi w hw
        obtain ⟨w', hw', hb⟩ := availableIdxs_mem pool subtasks.length i hi
        rw [hw] at hw'
        cases hw'
        exact hb

lemma runRetryLoop_succeeds_at (agent : WorkerAgentWrapper) (subtask : String)
    (idx : Nat) (beh : Nat → Except PyExc RunResponse) (resp : RunResponse) :
    ∀ (fuel k attempt : Nat), k < fuel →
      (∀ j, j < k → ∃ e, beh (attempt + j) = Except.error e) →
      beh (attempt + k) = Except.ok resp →
      runRetryLoop agent subtask idx beh attempt fuel =
        (Except.ok { subtask_index := idx, subtask := subtask,
                     result := _extract_output_from_dict resp,
                     agent_id := agent.agent_id, time_taken_seconds := 0 },
         List.replicate k 1)
  | 0, k, attempt, hk, _, _ => by omega
  | fuel + 1, 0, attempt, hk, hfail, hok => by
    rw [runRetryLoop_ok agent subtask idx beh attempt fuel resp (by simpa using hok)]
    simp
  | fuel + 1, k + 1, attempt, hk, hfail, hok => by
    obtain ⟨e, he⟩ := hfail 0 (by omega)
    rw [Nat.add_zero] at he
    have hf : fuel ≠ 0 := by omega
    rw [runRetryLoop_retry agent subtask idx beh attempt fuel e he hf]
    have ih := runRetryLoop_succeeds_at agent subtask idx beh resp fuel k
      (attempt + 1) (by omega)
      (fun j hj => by
        obtain ⟨e', he'⟩ := hfail (j + 1) (by omega)
        exact ⟨e', by rw [← he']; ring_nf⟩)
      (by rw [← hok]; ring_nf)
    rw [ih]
    simp [List.replicate_succ]

lemma runRetryLoop_exhausts (agent : WorkerAgentWrapper) (subtask : String)
    (idx : Nat) (beh : Nat → Except PyExc RunResponse) :
    ∀ (fuel attempt : Nat), fuel ≠ 0 →
      (∀ j, j < fuel → ∃ e, beh (attempt + j) = Except.error e) →
      ∃ e, beh (attempt + (fuel - 1)) = Except.error e ∧
        runRetryLoop agent subtask idx beh attempt fuel =
          (Except.error { agent_id := agent.agent_id, attempts := max_retrys,
                          subtask_index := idx, subtask := subtask,
                          excType := e.excType, excMsg := e.excMsg },
           List.replicate (fuel - 1) 1)
  | 0, attempt, hf, _ => by omega
  | 1, attempt, _, hfail => by
    obtain ⟨e, he⟩ := hfail 0 (by omega)
    refine ⟨e, by simpa using he, ?_⟩
    rw [show (1 : Nat) = 0 + 1 from rfl,
      runRetryLoop_last agent subtask idx beh attempt 0 e (by simpa using he) rfl]
    simp
  | fuel + 2, attempt, _, hfail => by
    obtain ⟨e, he⟩ := hfail 0 (by omega)
    rw [Nat.add_zero] at he
    obtain ⟨e', he', hrec⟩ := runRetryLoop_exhausts agent subtask idx beh
      (fuel + 1) (attempt + 1) (by omega)
      (fun j hj => by
        obtain ⟨e'', he''⟩ := hfail (j + 1) (by omega)
        refine ⟨e'', ?_⟩
        rw [← he'']
        congr 1
        omega)
    refine ⟨e', ?_, ?_⟩
    · rw [← he']
      congr 1
      omega
    · rw [show fuel + 2 = (fuel + 1) + 1 from rfl,
        runRetryLoop_retry agent subtask idx beh attempt (fuel + 1) e he (by omega),
        hrec]
      simp [List.replicate_succ]

lemma okOutcome_ok (s : TaskSuccess) : okOutcome (Except.ok s) = some s := rfl

lemma okOutcome_error (e : TaskError) : okOutcome (Except.error e) = none := rfl

lemma errOutcome_ok (s : TaskSuccess) : errOutcome (Except.ok s) = none := rfl

lemma errOutcome_error (e : TaskError) : errOutcome (Except.error e) = some e := rfl

lemma outcomeIdx_ok (s : TaskSuccess) : outcomeIdx (Except.ok s) = s.subtask_index := rfl

lemma outcomeIdx_error (e : TaskError) : outcomeIdx (Except.error e) = e.subtask_index := rfl

lemma outcomes_count_split (i : Nat) :
    ∀ l : List (Except TaskError TaskSuccess),
      ((l.filterMap okOutcome).filter (fun s => s.subtask_index == i)).length +
      ((l.filterMap errOutcome).filter (fun e => e.subtask_index == i)).length =
      (l.filter (fun o => outcomeIdx o == i)).length
  | [] => by simp
  | Except.ok s :: l => by
    have ih := outcomes_count_split i l
    by_cases hs : s.subtask_index = i
    · simp only [List.filterMap_cons, okOutcome_ok, errOutcome_ok,
        List.filter_cons, outcomeIdx_ok, hs, beq_self_eq_true, if_true,
        List.length_cons]
      omega
    · have hs' : (s.subtask_index == i) = false := by
        simpa using hs
      simp only [List.filterMap_cons, okOutcome_ok, errOutcome_ok,
        List.filter_cons, outcomeIdx_ok, hs', Bool.false_eq_true, if_false]
      omega
  | Except.error e :: l => by
    have ih := outcomes_count_split i l
    by_cases hs : e.subtask_index = i
    · simp only [List.filterMap_cons, okOutcome_error, errOutcome_error,
        List.filter_cons, outcomeIdx_error, hs, beq_self_eq_true, if_true,
        List.length_cons]
      omega
    · have hs' : (e.subtask_index == i) = false := by
        simpa using hs
      simp only [List.filterMap_cons, okOutcome_error, errOutcome_error,
        List.filter_cons, outcomeIdx_error, hs', Bool.false_eq_true, if_false]
      omega

/-- C1: for every accepted batch, `len(results) + len(failed)` equals the
number of input subtasks — every input task produces exactly one outcome
record, a success or a failure, never zero and never two. -/
theorem C1_every_task_one_outcome
    (pool : List WorkerAgentWrapper) (M : Nat) (subtasks : List String)
    (env : Nat → Nat → Except PyExc RunResponse)
    (r : BatchResult) (pool' : List WorkerAgentWrapper)
    (h : execute_subtasks pool M subtasks env = (Except.ok r, pool')) :
    r.results.length + r.failed.length = subtasks.length := by
  simp only [execute_subtasks] at h
  split at h
  · simp at h
  · split at h
    · simp at h
    · split at h
      · simp at h
      · rename_i h1 h2 h3
        rw [Prod.mk.injEq] at h
        obtain ⟨hr, hp⟩ := h
        rw [Except.ok.injEq] at hr
        subst hr
        dsimp only
        rw [outcomes_length_split, batchOutcomes_length]
        have hlen := availableIdxs_length pool subtasks.length
        omega

/-- Witness for C1: a concrete accepted one-task batch, with its outcome
count evaluated. -/
theorem C1_witness :
    execute_subtasks (freshPool 1) 1 ["t"] envOk = (Except.ok oneTaskResult, freshPool 1) ∧
    oneTaskResult.results.length + oneTaskResult.failed.length = 1 :=
  ⟨rfl, C1_every_task_one_outcome (freshPool 1) 1 ["t"] envOk oneTaskResult (freshPool 1) rfl⟩

/-- C2: admission is all-or-nothing — when fewer idle workers exist than
the (otherwise valid) batch size, `execute_subtasks` raises the
insufficient-capacity `RuntimeError`, starts no task and returns the pool
with every busy flag unchanged. -/
theorem C2_all_or_nothing_admission
    (pool : List WorkerAgentWrapper) (M : Nat) (subtasks : List String)
    (env : Nat → Nat → Except PyExc RunResponse)
    (h1 : 1 ≤ subtasks.length) (h2 : subtasks.length ≤ M)
    (h3 : idleCount pool < subtasks.length) :
    execute_subtasks pool M subtasks env =
      (Except.error (BatchError.runtimeError "Not enough agents"), pool) := by
  have hlt : (availableIdxs pool subtasks.length).length < subtasks.length := by
    rw [availableIdxs_length]
    omega
  simp only [execute_subtasks]
  rw [if_neg (by omega), if_neg (by omega), if_pos hlt]

/-- Witness for C2: a pool whose only worker is busy rejects a one-task
batch and is returned unchanged. -/
theorem C2_witness :
    idleCount [{ freshWorker 0 with is_busy := true }] < 1 ∧
    execute_subtasks [{ freshWorker 0 with is_busy := true }] 1 ["a"] envOk =
      (Except.error (BatchError.runtimeError "Not enough agents"),
       [{ freshWorker 0 with is_busy := true }]) :=
  ⟨by decide,
   C2_all_or_nothing_admission [{ freshWorker 0 with is_busy := true }] 1 ["a"] envOk
     (by decide) (by decide) (by decide)⟩

/-- C3: on every exit path of `execute_subtasks` the returned pool equals
the input pool — all workers claimed for a batch are released by the
`finally` block, so repeated batches leak no capacity. -/
theorem C3_workers_always_released
    (pool : List WorkerAgentWrapper) (M : Nat) (subtasks : List String)
    (env : Nat → Nat → Except PyExc RunResponse) :
    (execute_subtasks pool M subtasks env).2 = pool :=
  execute_subtasks_pool_unchanged pool M subtasks env

/-- C6: an empty batch and a batch larger than the pool capacity are both
rejected with caller-visible `ValueError`s, the two errors are distinct,
and the pool is returned with no worker touched. -/
theorem C6_validation_rejects_empty_and_oversized
    (pool : List WorkerAgentWrapper) (M : Nat) (subtasks : List String)
    (env : Nat → Nat → Except PyExc RunResponse) :
    (execute_subtasks pool M [] env =
      (Except.error (BatchError.valueError "Must provide at least 1 subtask"), pool)) ∧
    (M < subtasks.length →
      execute_subtasks pool M subtasks env =
        (Except.error (BatchError.valueError "Too many subtasks for pool size"), pool)) ∧
    BatchError.valueError "Must provide at least 1 subtask" ≠
      BatchError.valueError "Too many subtasks for pool size" := by
  refine ⟨?_, ?_, ?_⟩
  · simp [execute_subtasks]
  · intro hM
    simp only [execute_subtasks]
    rw [if_neg (by omega), if_pos hM]
  · decide

/-- Witness for C6: a two-task batch against capacity 1 is rejected with
the oversize error and the pool is untouched. -/
theorem C6_witness :
    1 < (["a", "b"] : List String).length ∧
    execute_subtasks (freshPool 1) 1 ["a", "b"] envOk =
      (Except.error (BatchError.valueError "Too many subtasks for pool size"), freshPool 1) :=
  ⟨by decide,
   (C6_validation_rejects_empty_and_oversized (freshPool 1) 1 ["a", "b"] envOk).2.1 (by decide)⟩

/-- Counterexample for C8: an accepted one-task batch on a fresh pool runs
its task (one success record) yet the worker's `task_count` is not
strictly larger afterwards — the pool is returned exactly as it was,
because `execute_on_agent` calls `agent.agent.run` directly instead of
the wrapper's `execute`. -/
theorem C8_counterexample_taskCount_not_incremented :
    (execute_subtasks (freshPool 1) 1 ["t"] envOk).1 = Except.ok oneTaskResult ∧
    oneTaskResult.results.length = 1 ∧
    (execute_subtasks (freshPool 1) 1 ["t"] envOk).2 = freshPool 1 ∧
    ¬ (((freshPool 1).getD 0 defaultWorker).task_count <
       (((execute_subtasks (freshPool 1) 1 ["t"] envOk).2).getD 0 defaultWorker).task_count) := by
  refine ⟨rfl, rfl, rfl, ?_⟩
  intro hlt
  have h2 : (execute_subtasks (freshPool 1) 1 ["t"] envOk).2 = freshPool 1 := rfl
  rw [h2] at hlt
  exact Nat.lt_irrefl _ hlt

/-- C8 amended: `WorkerAgentWrapper.execute` does increment `task_count`
and propagate the executor's outcome, but `execute_subtasks` bypasses it,
invoking the wrapped executor directly, so every worker's `task_count` is
unchanged by any batch. -/
theorem C8_amended_executor_called_directly :
    (∀ (w : WorkerAgentWrapper) (now : Nat) (res : Except PyExc RunResponse),
      (WorkerAgentWrapper.execute w now res).1.task_count = w.task_count + 1 ∧
      (WorkerAgentWrapper.execute w now res).2 = res) ∧
    (∀ (pool : List WorkerAgentWrapper) (M : Nat) (subtasks : List String)
      (env : Nat → Nat → Except PyExc RunResponse),
      (execute_subtasks pool M subtasks env).2.map (fun w => w.task_count) =
        pool.map (fun w => w.task_count)) := by
  refine ⟨fun w now res => ⟨rfl, rfl⟩, fun pool M subtasks env => ?_⟩
  rw [execute_subtasks_pool_unchanged]

/-- C9: pool initialization is idempotent — a second `initialize_pool`
call, with any configuration, returns the state produced by the first
call unchanged (same size and contents). -/
theorem C9_initialize_idempotent (M : Nat) (st : PoolState)
    (c1 c2 : Option (Option Nat)) :
    initialize_pool M (initialize_pool M st c1) c2 = initialize_pool M st c1 := by
  by_cases h : st.pool_initialized
  · simp [initialize_pool, h]
  · simp [initialize_pool, h]

/-- C4: the retry loop makes up to `max_retrys = 5` attempts, sleeps a
constant 1 time unit after each failed non-final attempt (every recorded
backoff is 1 and at most 4 occur), a task failing on attempts 1–4 and
succeeding on attempt 5 yields a success outcome, and only exhausting all
5 attempts yields the failure outcome. -/
theorem C4_bounded_retry_constant_backoff
    (agent : WorkerAgentWrapper) (subtask : String) (idx : Nat)
    (beh : Nat → Except PyExc RunResponse) :
    (∀ s ∈ (execute_on_agent agent subtask idx beh).2, s = 1) ∧
    (execute_on_agent agent subtask idx beh).2.length ≤ max_retrys - 1 ∧
    (∀ k, k < max_retrys →
      (∀ j, j < k → ∃ e, beh j = Except.error e) →
      ∀ resp, beh k = Except.ok resp →
        execute_on_agent agent subtask idx beh =
          (Except.ok { subtask_index := idx, subtask := subtask,
                       result := _extract_output_from_dict resp,
                       agent_id := agent.agent_id, time_taken_seconds := 0 },
           List.replicate k 1)) ∧
    ((∀ j, j < max_retrys → ∃ e, beh j = Except.error e) →
      ∃ e, beh (max_retrys - 1) = Except.error e ∧
        execute_on_agent agent subtask idx beh =
          (Except.error { agent_id := agent.agent_id, attempts := max_retrys,
                          subtask_index := idx, subtask := subtask,
                          excType := e.excType, excMsg := e.excMsg },
           List.replicate (max_retrys - 1) 1)) := by
  refine ⟨?_, ?_, ?_, ?_⟩
  · exact (runRetryLoop_sleeps agent subtask idx beh max_retrys 0).2
  · exact (runRetryLoop_sleeps agent subtask idx beh max_retrys 0).1
  · intro k hk hfail resp hok
    exact runRetryLoop_succeeds_at agent subtask idx beh resp max_retrys k 0 hk
      (fun j hj => by simpa using hfail j hj) (by simpa using hok)
  · intro hfail
    obtain ⟨e, he, hrun⟩ := runRetryLoop_exhausts agent subtask idx beh max_retrys 0
      (by decide) (fun j hj => by simpa using hfail j hj)
    exact ⟨e, by simpa using he, hrun⟩

/-- Witness for C4: a task failing on attempts 1–4 and succeeding on
attempt 5 returns a success record after exactly four unit backoffs. -/
theorem C4_witness :
    (4 < max_retrys) ∧
    execute_on_agent defaultWorker "t" 0 behLateSuccess =
      (Except.ok { subtask_index := 0, subtask := "t",
                   result := _extract_output_from_dict (okResp "done"),
                   agent_id := defaultWorker.agent_id, time_taken_seconds := 0 },
       List.replicate 4 1) :=
  ⟨by decide,
   (C4_bounded_retry_constant_backoff defaultWorker "t" 0 behLateSuccess).2.2.1 4
     (by decide)
     (fun j hj => ⟨excW, by simp [behLateSuccess, hj]⟩)
     (okResp "done") (by simp [behLateSuccess])⟩

/-- C5: an admitted batch always returns a structured result (never a
batch-level exception), and every gathered per-task outcome lands in the
aggregated result — an exhausted task as a failure record, a succeeding
sibling as a success record. -/
theorem C5_task_failures_contained
    (pool : List WorkerAgentWrapper) (M : Nat) (subtasks : List String)
    (env : Nat → Nat → Except PyExc RunResponse)
    (h1 : 1 ≤ subtasks.length) (h2 : subtasks.length ≤ M)
    (h3 : subtasks.length ≤ idleCount pool) :
    ∃ r, execute_subtasks pool M subtasks env = (Except.ok r, pool) ∧
      ∀ o ∈ batchOutcomes (setBusy pool (availableIdxs pool subtasks.length) true)
              (availableIdxs pool subtasks.length) subtasks env,
        (∀ e, o = Except.error e → e ∈ r.failed) ∧
        (∀ s, o = Except.ok s → s ∈ r.results) := by
  have hlt : ¬ (availableIdxs pool subtasks.length).length < subtasks.length := by
    rw [availableIdxs_length]
    omega
  have hroundtrip : setBusy (setBusy pool (availableIdxs pool subtasks.length) true)
      (availableIdxs pool subtasks.length) false = pool := by
    refine setBusy_roundtrip pool _ ?_
    intro i hi w hw
    obtain ⟨w', hw', hb⟩ := availableIdxs_mem pool subtasks.length i hi
    rw [hw] at hw'
    cases hw'
    exact hb
  have hEq : execute_subtasks pool M subtasks env =
      (Except.ok
        { results := (batchOutcomes
              (setBusy pool (availableIdxs pool subtasks.length) true)
              (availableIdxs pool subtasks.length) subtasks env).filterMap okOutcome,
          failed := (batchOutcomes
              (setBusy pool (availableIdxs pool subtasks.length) true)
              (availableIdxs pool subtasks.length) subtasks env).filterMap errOutcome,
          subtasks_count := subtasks.length,
          agents_used := (availableIdxs pool subtasks.length).length,
          pool_size := M }, pool) := by
    simp only [execute_subtasks]
    rw [if_neg (by omega), if_neg (by omega), if_neg hlt, hroundtrip]
  refine ⟨_, hEq, ?_⟩
  intro o ho
  refine ⟨fun e heo => ?_, fun s hso => ?_⟩
  · exact List.mem_filterMap.mpr ⟨o, ho, by rw [heo]; rfl⟩
  · exact List.mem_filterMap.mpr ⟨o, ho, by rw [hso]; rfl⟩

/-- Witness for C5: a two-task batch where task 0 fails permanently and
task 1 succeeds still returns a structured result containing both
outcomes. -/
theorem C5_witness :
    ∃ r, execute_subtasks (freshPool 2) 2 ["a", "b"] envFailFirst =
        (Except.ok r, freshPool 2) ∧
      ∀ o ∈ batchOutcomes
              (setBusy (freshPool 2)
                (availableIdxs (freshPool 2) (["a", "b"] : List String).length) true)
              (availableIdxs (freshPool 2) (["a", "b"] : List String).length)
              ["a", "b"] envFailFirst,
        (∀ e, o = Except.error e → e ∈ r.failed) ∧
        (∀ s, o = Except.ok s → s ∈ r.results) :=
  C5_task_failures_contained (freshPool 2) 2 ["a", "b"] envFailFirst
    (by decide) (by decide) (by decide)

/-- C7: index fidelity — for the concrete batch `["a","b","c"]` with task
1 failing permanently, the failures carry exactly index 1 and the
successes indices 0 and 2; and in every accepted batch each input index
is carried by exactly one outcome record across `results` and
`failed`. -/
theorem C7_index_fidelity :
    (successIdxs (execute_subtasks (freshPool 3) 3 ["a", "b", "c"] envFailMid).1
        = [0, 2] ∧
     failedIdxs (execute_subtasks (freshPool 3) 3 ["a", "b", "c"] envFailMid).1
        = [1]) ∧
    (∀ (pool : List WorkerAgentWrapper) (M : Nat) (subtasks : List String)
       (env : Nat → Nat → Except PyExc RunResponse)
       (r : BatchResult) (pool' : List WorkerAgentWrapper),
      execute_subtasks pool M subtasks env = (Except.ok r, pool') →
      ∀ i, i < subtasks.length →
        (r.results.filter (fun s => s.subtask_index == i)).length +
        (r.failed.filter (fun e => e.subtask_index == i)).length = 1) := by
  refine ⟨⟨rfl, rfl⟩, ?_⟩
  intro pool M subtasks env r pool' h i hi
  simp only [execute_subtasks] at h
  split at h
  · simp at h
  · split at h
    · simp at h
    · split at h
      · simp at h
      · rename_i h1 h2 h3
        rw [Prod.mk.injEq] at h
        obtain ⟨hr, hp⟩ := h
        rw [Except.ok.injEq] at hr
        subst hr
        dsimp only
        rw [outcomes_count_split]
        have hmap := batchOutcomes_map_idx
          (setBusy pool (availableIdxs pool subtasks.length) true)
          (availableIdxs pool subtasks.length) subtasks env
        have hlen := availableIdxs_length pool subtasks.length
        have hminn : min (availableIdxs pool subtasks.length).length subtasks.length
            = subtasks.length := by omega
        rw [hminn] at hmap
        rw [← List.countP_eq_length_filter]
        have hcomp : (fun o => outcomeIdx o == i) =
            ((fun j => j == i) ∘ outcomeIdx) := rfl
        rw [hcomp, ← List.countP_map, hmap]
        have hone : List.count i (List.range subtasks.length) = 1 :=
          List.count_eq_one_of_mem (List.nodup_range _) (List.mem_range.mpr hi)
        simpa [List.count] using hone

/-- Witness for C7: the concrete three-task batch evaluated, and the
general per-index uniqueness applied to it at index 1. -/
theorem C7_witness :
    execute_subtasks (freshPool 3) 3 ["a", "b", "c"] envFailMid =
      (Except.ok threeTaskResult, freshPool 3) ∧
    (threeTaskResult.results.filter (fun s => s.subtask_index == 1)).length +
      (threeTaskResult.failed.filter (fun e => e.subtask_index == 1)).length = 1 :=
  ⟨rfl,
   C7_index_fidelity.2 (freshPool 3) 3 ["a", "b", "c"] envFailMid threeTaskResult
     (freshPool 3) rfl 1 (by decide)⟩

/-- Counterexample for C10: a response with no `"output"` key and a
non-empty `messages` list whose last element carries no `content` — the
code returns `str(result)`, not the (non-existent) content of the last
element, refuting the claim's unconditional second case. -/
theorem C10_counterexample_no_content_fallthrough :
    noContentResp.output = none ∧
    noContentResp.messages ≠ [] ∧
    noContentResp.messages.getLast?.bind Msg.contentVal = none ∧
    _extract_output_from_dict noContentResp = noContentResp.selfStr :=
  ⟨rfl, by decide, rfl, rfl⟩

/-- C10 amended: the extracted text is `str(result["output"])` when the
key is present; otherwise the content of the last message when that
element carries one; otherwise `str(result)` — i.e. the code agrees with
the spec-side reading `specExtract`. -/
theorem C10_amended_extraction_rule (result : RunResponse) :
    _extract_output_from_dict result = specExtract result := by
  cases hout : result.output with
  | some o => simp [_extract_output_from_dict, specExtract, hout]
  | none =>
    cases hl : result.messages.getLast? with
    | none => simp [_extract_output_from_dict, specExtract, hout, hl]
    | some m =>
      cases m <;>
        simp [_extract_output_from_dict, specExtract, hout, hl, Msg.contentVal]
